import Mathlib

/-!
# Verification of the mobot chat-handler core (`src/lib/handlers/chat.rs`)

Shallow embedding of the event-normalization, state-container and
handler-chain core of the repository.  Pure functions of the source are
translated to Lean functions; the `Arc<RwLock<T>>` state containers are
modelled by an explicit heap of cells indexed by natural numbers (an
`Arc` handle is a cell index; cloning the handle copies the index, so two
equal indices share the same underlying cell).  Functions returning
`Result<_, anyhow::Error>` are embedded as `Except String _` carrying the
source's error strings; conversions that can `panic!` (or `unwrap`) are
embedded in an outcome type with a distinguished `panicked` constructor,
since a panic aborts the process and is not a recoverable value.
-/

namespace Mobot

/-- Modelled from the spec: the outbound API client (`API`), an external
collaborator treated as opaque (§1, §3: "apiHandle is a shared read-only
reference to the outbound API client").  No claim inspects it. -/
structure API : Type where
  tag : Unit

/-- Modelled from the spec: the chat sub-structure of a wire `Message`
(`message.rs` is not among the provided sources).  Only the `id` field is
used by the core (§6: "the chat id derived from the originating Event"). -/
structure Chat where
  id : Int
  deriving Repr, DecidableEq

/-- Modelled from the spec: the sender (`User`) of a wire message; only
`first_name` is read by the core (§4.4).  The Rust `Default` for a user
has an empty `first_name`. -/
structure User where
  first_name : String
  deriving Repr, DecidableEq

/-- Rust `User::default()`. -/
instance : Inhabited User := ⟨⟨""⟩⟩

/-- Modelled from the spec: the wire `Message` payload (`message.rs` is
not among the provided sources), restricted to the fields the core reads:
`chat`, `from` (optional sender; named `from_` because `from` is a Lean
keyword) and `text` (optional).  Spec §3 treats it as an opaque payload
with named fields. -/
structure Message where
  chat : Chat
  from_ : Option User
  text : Option String
  deriving Repr, DecidableEq

/-- Rust `Message::default()`: default chat id 0, no sender, no text. -/
instance : Inhabited Message := ⟨⟨⟨0⟩, none, none⟩⟩

/-- Modelled from the spec: the wire `CallbackQuery` payload, restricted
to the fields the core reads: `from` (the sender, always present),
`message` (the optionally embedded message) and `data` (optional data
string). -/
structure CallbackQuery where
  from_ : User
  message : Option Message
  data : Option String
  deriving Repr, DecidableEq

/-- Modelled from the spec: the inbound `Update` payload (§6), with the
five optional fields the classifier reads. -/
structure Update where
  message : Option Message
  edited_message : Option Message
  channel_post : Option Message
  edited_channel_post : Option Message
  callback_query : Option CallbackQuery
  deriving Repr, DecidableEq

/-- `MessageEvent` represents a new or edited message
(enum `MessageEvent` in `chat.rs`). -/
inductive MessageEvent where
  | New (msg : Message)
  | Edited (msg : Message)
  | Post (msg : Message)
  | EditedPost (msg : Message)
  | Callback (query : CallbackQuery)
  | Unknown
  deriving Repr, DecidableEq

/-- `Event` represents an event sent to a chat handler
(struct `Event` in `chat.rs`). -/
structure Event where
  api : API
  message : MessageEvent

/-- `impl From<Update> for MessageEvent` in `chat.rs`: classify an update
by checking its optional fields in order. -/
def MessageEvent.fromUpdate (update : Update) : MessageEvent :=
  match update.message with
  | some m => .New m
  | none =>
    match update.edited_message with
    | some m => .Edited m
    | none =>
      match update.channel_post with
      | some m => .Post m
      | none =>
        match update.edited_channel_post with
        | some m => .EditedPost m
        | none =>
          match update.callback_query with
          | some c => .Callback c
          | none => .Unknown

/-- Outcome of running a Rust function that may `panic!` (directly or via
`Option::unwrap`): either a normal value or a process abort.  Panic
messages are elided — no claim depends on their text, only on the fact
that the process aborts instead of returning a recoverable value. -/
inductive Abortable (α : Type) where
  | ok (a : α)
  | panicked
  deriving Repr, DecidableEq

/-- `impl From<MessageEvent> for Message` in `chat.rs`: the generic
coerce-to-Message conversion.  `Callback` unwraps `query.message`
(panicking when it is `None`); `Unknown` hits an explicit `panic!`. -/
def Message.fromEvent : MessageEvent → Abortable Message
  | .New msg => .ok msg
  | .Edited msg => .ok msg
  | .Post msg => .ok msg
  | .EditedPost msg => .ok msg
  | .Callback query =>
    match query.message with
    | some m => .ok m
    | none => .panicked
  | .Unknown => .panicked

/-- `impl From<MessageEvent> for CallbackQuery` in `chat.rs`: returns the
query for `Callback` and panics on every other variant. -/
def CallbackQuery.fromEvent : MessageEvent → Abortable CallbackQuery
  | .Callback query => .ok query
  | _ => .panicked

/-- `impl ToString for MessageEvent` in `chat.rs`: unwraps `msg.text`
(resp. `query.data`), panicking when the field is absent; explicit
`panic!` on `Unknown`. -/
def MessageEvent.toText : MessageEvent → Abortable String
  | .New msg =>
    match msg.text with
    | some t => .ok t
    | none => .panicked
  | .Edited msg =>
    match msg.text with
    | some t => .ok t
    | none => .panicked
  | .Post msg =>
    match msg.text with
    | some t => .ok t
    | none => .panicked
  | .EditedPost msg =>
    match msg.text with
    | some t => .ok t
    | none => .panicked
  | .Callback query =>
    match query.data with
    | some d => .ok d
    | none => .panicked
  | .Unknown => .panicked

/-- `Event::get_message` in `chat.rs`: a new or edited message, else a
recoverable `anyhow` error with the source's message string. -/
def Event.get_message (e : Event) : Except String Message :=
  match e.message with
  | .New msg => .ok msg
  | .Edited msg => .ok msg
  | _ => .error "MessageEvent is not a Message"

/-- `Event::get_new_message` in `chat.rs`. -/
def Event.get_new_message (e : Event) : Except String Message :=
  match e.message with
  | .New msg => .ok msg
  | _ => .error "MessageEvent is not a New Message"

/-- `Event::get_edited_message` in `chat.rs`. -/
def Event.get_edited_message (e : Event) : Except String Message :=
  match e.message with
  | .Edited msg => .ok msg
  | _ => .error "MessageEvent is not an Edited Message"

/-- `Event::get_post` in `chat.rs`: a new or edited channel post. -/
def Event.get_post (e : Event) : Except String Message :=
  match e.message with
  | .Post msg => .ok msg
  | .EditedPost msg => .ok msg
  | _ => .error "MessageEvent is not a Post"

/-- `Event::get_new_post` in `chat.rs`. -/
def Event.get_new_post (e : Event) : Except String Message :=
  match e.message with
  | .Post msg => .ok msg
  | _ => .error "MessageEvent is not a New Post"

/-- `Event::get_edited_post` in `chat.rs`. -/
def Event.get_edited_post (e : Event) : Except String Message :=
  match e.message with
  | .EditedPost msg => .ok msg
  | _ => .error "MessageEvent is not an Edited Post"

/-- `Event::get_callback_query` in `chat.rs`. -/
def Event.get_callback_query (e : Event) : Except String CallbackQuery :=
  match e.message with
  | .Callback query => .ok query
  | _ => .error "MessageEvent is not a CallbackQuery"

/-!
## State containers

`State<T>` in `chat.rs` is `Arc<RwLock<T>>`.  We model the collection of
live `RwLock` cells as an explicit heap (a list of values) and a `State`
handle as the index of its cell: cloning an `Arc` copies the index, so
handles with the same index share the same mutable cell, and allocating a
new `Arc::new(RwLock::new(v))` appends a fresh cell.  Lock acquisition is
infallible in the source's usage, so reads and writes are pure heap
operations here; interleaving is irrelevant to the claims, which are
about values before and after whole operations.
-/

/-- The heap of live state cells (one per `Arc<RwLock<T>>` allocation). -/
structure Heap (T : Type) where
  cells : List T
  deriving Repr, DecidableEq

/-- `State<T>` in `chat.rs`: a handle onto one cell of the heap (the
`Arc` pointer identity). -/
structure State (T : Type) where
  ref : Nat
  deriving Repr, DecidableEq

/-- Read the value behind a handle (`state.read().await`); `none` iff the
handle is dangling, which cannot arise for handles produced by `alloc`. -/
def Heap.read? {T : Type} (σ : Heap T) (s : State T) : Option T :=
  σ.cells[s.ref]?

/-- Overwrite the value behind a handle (`*state.write().await = v`). -/
def Heap.write {T : Type} (σ : Heap T) (s : State T) (v : T) : Heap T :=
  ⟨σ.cells.set s.ref v⟩

/-- `Arc::new(RwLock::new(v))`: allocate a fresh cell holding `v` and
return its handle. -/
def Heap.alloc {T : Type} (σ : Heap T) (v : T) : Heap T × State T :=
  (⟨σ.cells ++ [v]⟩, ⟨σ.cells.length⟩)

/-- `State::from` in `chat.rs` (the spec's `derive()`): read the current
value behind the source handle, deep-copy it and allocate a brand-new
container around the copy.  Named `derive` because `from` is a Lean
keyword.  The bound `h` reflects that an `Arc` handle always points at a
live cell. -/
def State.derive {T : Type} (σ : Heap T) (s : State T)
    (h : s.ref < σ.cells.length) : Heap T × State T :=
  σ.alloc (σ.cells.get ⟨s.ref, h⟩)

/-!
## Handlers, actions and the chain
-/

/-- `Action` in `chat.rs`: what to do after handling a chat event. -/
inductive Action where
  | Next
  | Done
  | ReplyText (text : String)
  | ReplyMarkdown (text : String)
  | ReplySticker (file : String)
  deriving Repr, DecidableEq

/-- The shape of a handler function: `Fn(Event, State<S>) ->
Result<Action, Error>`.  It receives its state handle and the heap, and
returns the possibly mutated heap alongside its result (the explicit
heap threading stands for the interior mutability of `State<S>`). -/
def HandlerFn (S : Type) : Type :=
  Event → State S → Heap S → Except String Action × Heap S

/-- `Handler<S>` in `chat.rs`: a handler function bound to one state
container. -/
structure Handler (S : Type) where
  f : HandlerFn S
  state : State S

/-- `Handler::new` in `chat.rs`: bind `func` to a freshly allocated
container holding `S::default()` (the `Inhabited` default mirrors Rust's
`Default` bound). -/
def Handler.new {S : Type} [Inhabited S] (func : HandlerFn S) (σ : Heap S) :
    Handler S × Heap S :=
  let p := σ.alloc default
  (⟨func, p.2⟩, p.1)

/-- `Handler::with_state` in `chat.rs`: keep the function, rebind to a
freshly allocated container holding `state`. -/
def Handler.with_state {S : Type} (h : Handler S) (state : S) (σ : Heap S) :
    Handler S × Heap S :=
  let p := σ.alloc state
  (⟨h.f, p.2⟩, p.1)

/-- `Handler::set_state` in `chat.rs`: rebind the handler to an
externally owned container handle (shared ownership — no allocation). -/
def Handler.set_state {S : Type} (h : Handler S) (state : State S) :
    Handler S :=
  ⟨h.f, state⟩

/-- `log_handler` in `chat.rs`: logs every message received.  The `info!`
side effect is modelled by returning the formatted log line alongside the
action.  The source takes its state argument by value and ignores it
(`_: S`), so it cannot touch any bound container. -/
def log_handler {S : Type} (e : Event) (_s : S) :
    Except String (Action × String) :=
  match e.message with
  | .New message | .Edited message | .Post message | .EditedPost message =>
    let chat_id := message.chat.id
    let sender := message.from_.getD default
    let text := message.text.getD ""
    .ok (.Next,
      "(" ++ toString chat_id ++ ") Message from " ++ sender.first_name
        ++ ": " ++ text)
  | .Callback query =>
    let chat_id := (query.message.getD default).chat.id
    let sender := query.from_
    let data := query.data.getD ""
    .ok (.Next,
      "(" ++ toString chat_id ++ ") Callback from " ++ sender.first_name
        ++ ": " ++ data)
  | .Unknown => .error "Unknown message type"

/-- Modelled from the spec: the Handler Chain / Dispatcher (§2, §4.3) —
"thin orchestration, specified here though minimally represented in
source"; the dispatcher module is not among the provided source files.
Runs the registered handlers in order on one event, each invoked with its
own bound state handle against the shared heap.  `Next` proceeds;
`Done` stops the chain; `ReplyText`/`ReplyMarkdown`/`ReplySticker` are
continue-with-effect — the payload is forwarded (recorded in the returned
action stream) and the chain proceeds as under `Next`.  A failing handler
aborts the remaining handlers (the spec's recommended default policy,
§4.3 step 4). -/
def dispatch {S : Type} (e : Event) : List (Handler S) → Heap S →
    Except String (List Action) × Heap S
  | [], σ => (.ok [], σ)
  | h :: hs, σ =>
    match h.f e h.state σ with
    | (.error msg, σ₁) => (.error msg, σ₁)
    | (.ok .Done, σ₁) => (.ok [.Done], σ₁)
    | (.ok a, σ₁) =>
      match dispatch e hs σ₁ with
      | (.ok rest, σ₂) => (.ok (a :: rest), σ₂)
      | (.error msg, σ₂) => (.error msg, σ₂)

/-!
## Theorems
-/

/-- C2: classification checks the five optional `Update` fields in strict
priority order — new message, edited message, channel post, edited
channel post, callback query — returning the first populated one wrapped
in its tag; both-populated updates classify as `New`; an update with no
populated field classifies as `Unknown`. -/
theorem classify_priority (u : Update) :
    (∀ m, u.message = some m → MessageEvent.fromUpdate u = .New m) ∧
    (∀ m, u.message = none → u.edited_message = some m →
      MessageEvent.fromUpdate u = .Edited m) ∧
    (∀ m, u.message = none → u.edited_message = none →
      u.channel_post = some m → MessageEvent.fromUpdate u = .Post m) ∧
    (∀ m, u.message = none → u.edited_message = none →
      u.channel_post = none → u.edited_channel_post = some m →
      MessageEvent.fromUpdate u = .EditedPost m) ∧
    (∀ c, u.message = none → u.edited_message = none →
      u.channel_post = none → u.edited_channel_post = none →
      u.callback_query = some c → MessageEvent.fromUpdate u = .Callback c) ∧
    (u.message = none → u.edited_message = none → u.channel_post = none →
      u.edited_channel_post = none → u.callback_query = none →
      MessageEvent.fromUpdate u = .Unknown) ∧
    (∀ m c, u.message = some m → u.callback_query = some c →
      MessageEvent.fromUpdate u = .New m) := by
  refine ⟨?_, ?_, ?_, ?_, ?_, ?_, ?_⟩ <;>
    intros <;> simp_all [MessageEvent.fromUpdate]

/-- Witness for C2: an update with both a new message and a callback
query populated classifies as `New` with that message. -/
theorem classify_priority_witness :
    MessageEvent.fromUpdate
      ⟨some ⟨⟨7⟩, none, some "hello"⟩, none, none, none,
        some ⟨⟨"u"⟩, none, some "cbdata"⟩⟩ =
      .New ⟨⟨7⟩, none, some "hello"⟩ :=
  (classify_priority _).2.2.2.2.2.2 ⟨⟨7⟩, none, some "hello"⟩
    ⟨⟨"u"⟩, none, some "cbdata"⟩ rfl rfl

/-- C1 (code bug): the coerce-to-Message conversion aborts the process
(`panic!` / `Option::unwrap`) on `Unknown` and on a `Callback` without an
embedded message, instead of returning the recoverable `InvalidVariant` /
`MissingPayload` errors the spec requires; the four message tags and a
`Callback` carrying a message do return the inner message. -/
theorem coerce_to_message_panics :
    Message.fromEvent MessageEvent.Unknown = .panicked ∧
    Message.fromEvent (.Callback ⟨⟨"u"⟩, none, some "d"⟩) = .panicked ∧
    Message.fromEvent (.New ⟨⟨1⟩, none, some "t"⟩) =
      .ok ⟨⟨1⟩, none, some "t"⟩ ∧
    Message.fromEvent (.Edited ⟨⟨1⟩, none, some "t"⟩) =
      .ok ⟨⟨1⟩, none, some "t"⟩ ∧
    Message.fromEvent (.Post ⟨⟨1⟩, none, some "t"⟩) =
      .ok ⟨⟨1⟩, none, some "t"⟩ ∧
    Message.fromEvent (.EditedPost ⟨⟨1⟩, none, some "t"⟩) =
      .ok ⟨⟨1⟩, none, some "t"⟩ ∧
    Message.fromEvent
        (.Callback ⟨⟨"u"⟩, some ⟨⟨1⟩, none, some "t"⟩, some "d"⟩) =
      .ok ⟨⟨1⟩, none, some "t"⟩ :=
  ⟨rfl, rfl, rfl, rfl, rfl, rfl, rfl⟩

/-- C3 (code bug): text extraction aborts the process (`unwrap` /
`panic!`) when the text or data field is absent and on `Unknown`, instead
of returning the recoverable `MissingText` / `InvalidVariant` errors the
spec requires; when the field is present it returns the text (resp. the
callback data). -/
theorem text_extraction_panics :
    MessageEvent.toText (.New ⟨⟨1⟩, none, none⟩) = .panicked ∧
    MessageEvent.toText (.Callback ⟨⟨"u"⟩, none, none⟩) = .panicked ∧
    MessageEvent.toText MessageEvent.Unknown = .panicked ∧
    MessageEvent.toText (.New ⟨⟨1⟩, none, some "hi"⟩) = .ok "hi" ∧
    MessageEvent.toText (.Edited ⟨⟨1⟩, none, some "hi"⟩) = .ok "hi" ∧
    MessageEvent.toText (.Post ⟨⟨1⟩, none, some "hi"⟩) = .ok "hi" ∧
    MessageEvent.toText (.EditedPost ⟨⟨1⟩, none, some "hi"⟩) = .ok "hi" ∧
    MessageEvent.toText (.Callback ⟨⟨"u"⟩, none, some "cb"⟩) = .ok "cb" :=
  ⟨rfl, rfl, rfl, rfl, rfl, rfl, rfl, rfl⟩

/-- C10: the coerce-to-CallbackQuery conversion is partial with no
recoverable error path: it returns the query for `Callback`, and for
every other tag it aborts the process (`panic!`). -/
theorem callback_coercion_partial :
    (∀ q, CallbackQuery.fromEvent (.Callback q) = .ok q) ∧
    (∀ m, CallbackQuery.fromEvent (.New m) = .panicked) ∧
    (∀ m, CallbackQuery.fromEvent (.Edited m) = .panicked) ∧
    (∀ m, CallbackQuery.fromEvent (.Post m) = .panicked) ∧
    (∀ m, CallbackQuery.fromEvent (.EditedPost m) = .panicked) ∧
    CallbackQuery.fromEvent .Unknown = .panicked :=
  ⟨fun _ => rfl, fun _ => rfl, fun _ => rfl, fun _ => rfl, fun _ => rfl, rfl⟩

/-- C5: every typed accessor on `Event` returns the inner payload when
the event tag matches its expected shape and otherwise fails with the
recoverable type-mismatch error (an `anyhow` error value, never a
process abort); in particular `get_message` on a `Callback` event
returns an error. -/
theorem typed_accessors (a : API) (m : Message) (q : CallbackQuery) :
    (Event.get_message ⟨a, .New m⟩ = .ok m) ∧
    (Event.get_message ⟨a, .Edited m⟩ = .ok m) ∧
    (Event.get_message ⟨a, .Post m⟩ =
      .error "MessageEvent is not a Message") ∧
    (Event.get_message ⟨a, .EditedPost m⟩ =
      .error "MessageEvent is not a Message") ∧
    (Event.get_message ⟨a, .Callback q⟩ =
      .error "MessageEvent is not a Message") ∧
    (Event.get_message ⟨a, .Unknown⟩ =
      .error "MessageEvent is not a Message") ∧
    (Event.get_new_message ⟨a, .New m⟩ = .ok m) ∧
    (Event.get_new_message ⟨a, .Edited m⟩ =
      .error "MessageEvent is not a New Message") ∧
    (Event.get_new_message ⟨a, .Post m⟩ =
      .error "MessageEvent is not a New Message") ∧
    (Event.get_new_message ⟨a, .EditedPost m⟩ =
      .error "MessageEvent is not a New Message") ∧
    (Event.get_new_message ⟨a, .Callback q⟩ =
      .error "MessageEvent is not a New Message") ∧
    (Event.get_new_message ⟨a, .Unknown⟩ =
      .error "MessageEvent is not a New Message") ∧
    (Event.get_edited_message ⟨a, .Edited m⟩ = .ok m) ∧
    (Event.get_edited_message ⟨a, .New m⟩ =
      .error "MessageEvent is not an Edited Message") ∧
    (Event.get_edited_message ⟨a, .Post m⟩ =
      .error "MessageEvent is not an Edited Message") ∧
    (Event.get_edited_message ⟨a, .EditedPost m⟩ =
      .error "MessageEvent is not an Edited Message") ∧
    (Event.get_edited_message ⟨a, .Callback q⟩ =
      .error "MessageEvent is not an Edited Message") ∧
    (Event.get_edited_message ⟨a, .Unknown⟩ =
      .error "MessageEvent is not an Edited Message") ∧
    (Event.get_post ⟨a, .Post m⟩ = .ok m) ∧
    (Event.get_post ⟨a, .EditedPost m⟩ = .ok m) ∧
    (Event.get_post ⟨a, .New m⟩ = .error "MessageEvent is not a Post") ∧
    (Event.get_post ⟨a, .Edited m⟩ =
      .error "MessageEvent is not a Post") ∧
    (Event.get_post ⟨a, .Callback q⟩ =
      .error "MessageEvent is not a Post") ∧
    (Event.get_post ⟨a, .Unknown⟩ =
      .error "MessageEvent is not a Post") ∧
    (Event.get_new_post ⟨a, .Post m⟩ = .ok m) ∧
    (Event.get_new_post ⟨a, .New m⟩ =
      .error "MessageEvent is not a New Post") ∧
    (Event.get_new_post ⟨a, .Edited m⟩ =
      .error "MessageEvent is not a New Post") ∧
    (Event.get_new_post ⟨a, .EditedPost m⟩ =
      .error "MessageEvent is not a New Post") ∧
    (Event.get_new_post ⟨a, .Callback q⟩ =
      .error "MessageEvent is not a New Post") ∧
    (Event.get_new_post ⟨a, .Unknown⟩ =
      .error "MessageEvent is not a New Post") ∧
    (Event.get_edited_post ⟨a, .EditedPost m⟩ = .ok m) ∧
    (Event.get_edited_post ⟨a, .New m⟩ =
      .error "MessageEvent is not an Edited Post") ∧
    (Event.get_edited_post ⟨a, .Edited m⟩ =
      .error "MessageEvent is not an Edited Post") ∧
    (Event.get_edited_post ⟨a, .Post m⟩ =
      .error "MessageEvent is not an Edited Post") ∧
    (Event.get_edited_post ⟨a, .Callback q⟩ =
      .error "MessageEvent is not an Edited Post") ∧
    (Event.get_edited_post ⟨a, .Unknown⟩ =
      .error "MessageEvent is not an Edited Post") ∧
    (Event.get_callback_query ⟨a, .Callback q⟩ = .ok q) ∧
    (Event.get_callback_query ⟨a, .New m⟩ =
      .error "MessageEvent is not a CallbackQuery") ∧
    (Event.get_callback_query ⟨a, .Edited m⟩ =
      .error "MessageEvent is not a CallbackQuery") ∧
    (Event.get_callback_query ⟨a, .Post m⟩ =
      .error "MessageEvent is not a CallbackQuery") ∧
    (Event.get_callback_query ⟨a, .EditedPost m⟩ =
      .error "MessageEvent is not a CallbackQuery") ∧
    (Event.get_callback_query ⟨a, .Unknown⟩ =
      .error "MessageEvent is not a CallbackQuery") :=
  ⟨rfl, rfl, rfl, rfl, rfl, rfl, rfl, rfl, rfl, rfl, rfl, rfl, rfl, rfl,
    rfl, rfl, rfl, rfl, rfl, rfl, rfl, rfl, rfl, rfl, rfl, rfl, rfl, rfl,
    rfl, rfl, rfl, rfl, rfl, rfl, rfl, rfl, rfl, rfl, rfl, rfl, rfl, rfl⟩

/-- C9: `get_message` succeeds exactly on the `New` and `Edited` tags and
`get_post` exactly on the `Post` and `EditedPost` tags, so the two
two-tag accessors partition the four message-carrying tags. -/
theorem message_post_accessor_partition (e : Event) :
    ((∃ m, Event.get_message e = .ok m) ↔
      (∃ m, e.message = .New m ∨ e.message = .Edited m)) ∧
    ((∃ m, Event.get_post e = .ok m) ↔
      (∃ m, e.message = .Post m ∨ e.message = .EditedPost m)) ∧
    (∀ m, e.message = .New m ∨ e.message = .Edited m →
      Event.get_message e = .ok m) ∧
    (∀ m, e.message = .Post m ∨ e.message = .EditedPost m →
      Event.get_post e = .ok m) ∧
    (∀ m, e.message = .Post m ∨ e.message = .EditedPost m →
      Event.get_message e = .error "MessageEvent is not a Message") ∧
    (∀ m, e.message = .New m ∨ e.message = .Edited m →
      Event.get_post e = .error "MessageEvent is not a Post") := by
  obtain ⟨a, ev⟩ := e
  cases ev <;>
    simp [Event.get_message, Event.get_post]

/-- Witness for C9: `get_message` on a `Post`-tagged event fails with the
type-mismatch error. -/
theorem message_post_accessor_partition_witness :
    Event.get_message ⟨⟨()⟩, .Post ⟨⟨3⟩, none, some "p"⟩⟩ =
      .error "MessageEvent is not a Message" :=
  (message_post_accessor_partition _).2.2.2.2.1 ⟨⟨3⟩, none, some "p"⟩
    (Or.inl rfl)

/-- C4: `derive` (`State::from`) deep-copies the current value into a
brand-new container: the derived handle is distinct from the source
handle, both read the original value right after the derive, and
afterwards a write through either handle is invisible through the
other. -/
theorem derive_isolation {T : Type} (σ : Heap T) (c : State T) (V : T)
    (h : c.ref < σ.cells.length) (hV : σ.read? c = some V) :
    (State.derive σ c h).2 ≠ c ∧
    (State.derive σ c h).1.read? (State.derive σ c h).2 = some V ∧
    (State.derive σ c h).1.read? c = some V ∧
    (∀ w, ((State.derive σ c h).1.write (State.derive σ c h).2 w).read? c =
      some V) ∧
    (∀ w, ((State.derive σ c h).1.write c w).read?
      (State.derive σ c h).2 = some V) := by
  have hne : σ.cells.length ≠ c.ref := Nat.ne_of_gt h
  have hV' : σ.cells[c.ref]? = some V := hV
  have hg : σ.cells[c.ref] = V := by
    have h2 : σ.cells[c.ref]? = some σ.cells[c.ref] :=
      List.getElem?_eq_getElem h
    rw [h2] at hV'
    injection hV' with hV'
  have hV'' : σ.cells[c.ref]? = some V := hV
  refine ⟨?_, ?_, ?_, ?_, ?_⟩
  · intro heq
    exact hne (congrArg State.ref heq)
  · simp only [State.derive, Heap.alloc, Heap.read?, List.get_eq_getElem]
    rw [List.getElem?_concat_length]
    exact congrArg some hg
  · simp only [State.derive, Heap.alloc, Heap.read?]
    rw [List.getElem?_append_left h]
    exact hV''
  · intro w
    simp only [State.derive, Heap.alloc, Heap.write, Heap.read?]
    rw [List.getElem?_set_ne hne, List.getElem?_append_left h]
    exact hV''
  · intro w
    simp only [State.derive, Heap.alloc, Heap.write, Heap.read?,
      List.get_eq_getElem]
    rw [List.getElem?_set_ne (Ne.symm hne), List.getElem?_concat_length]
    exact congrArg some hg

/-- Witness for C4: deriving from a one-cell heap holding `5`, then
writing `9` through the derived handle, leaves the source reading `5`. -/
theorem derive_isolation_witness :
    ((State.derive (⟨[5]⟩ : Heap Nat) ⟨0⟩ (by decide)).1.write
      (State.derive (⟨[5]⟩ : Heap Nat) ⟨0⟩ (by decide)).2 9).read? ⟨0⟩ =
      some 5 :=
  (derive_isolation ⟨[5]⟩ ⟨0⟩ 5 (by decide) rfl).2.2.2.1 9

/-- C7: `Handler::new` binds the given function to a freshly allocated
container holding the state type's default value; `with_state` rebinds
the handler to a fresh container holding the given value (keeping the
function); `set_state` rebinds the handler to the externally owned
container handle itself, so a write through that external handle is seen
by the handler (shared underlying state).  Freshness is expressed by the
new handle reading `none` in the pre-allocation heap. -/
theorem handler_construction {S : Type} [Inhabited S] (f : HandlerFn S)
    (σ : Heap S) (h : Handler S) (v : S) (c : State S) :
    ((Handler.new f σ).1.f = f) ∧
    (σ.read? (Handler.new f σ).1.state = none) ∧
    ((Handler.new f σ).2.read? (Handler.new f σ).1.state =
      some (default : S)) ∧
    ((h.with_state v σ).1.f = h.f) ∧
    (σ.read? (h.with_state v σ).1.state = none) ∧
    ((h.with_state v σ).2.read? (h.with_state v σ).1.state = some v) ∧
    ((h.set_state c).f = h.f) ∧
    ((h.set_state c).state = c) ∧
    (∀ (σ' : Heap S) (w : S), c.ref < σ'.cells.length →
      (σ'.write c w).read? (h.set_state c).state = some w) := by
  refine ⟨rfl, ?_, ?_, rfl, ?_, ?_, rfl, rfl, ?_⟩
  · simp [Handler.new, Heap.alloc, Heap.read?]
  · simp [Handler.new, Heap.alloc, Heap.read?,
      List.getElem?_concat_length]
  · simp [Handler.with_state, Heap.alloc, Heap.read?]
  · simp [Handler.with_state, Heap.alloc, Heap.read?,
      List.getElem?_concat_length]
  · intro σ' w hlt
    simp only [Handler.set_state, Heap.write, Heap.read?]
    exact List.getElem?_set_self hlt

/-- Witness for C7: rebinding a handler to an external two-cell heap's
second container and writing `9` through that container is visible
through the handler's bound state. -/
theorem handler_construction_witness :
    ((⟨[0, 0]⟩ : Heap Nat).write ⟨1⟩ 9).read?
      ((Handler.set_state ⟨fun _ _ σ => (.ok .Next, σ), ⟨0⟩⟩ ⟨1⟩).state) =
      some 9 :=
  (handler_construction (fun _ _ σ => (.ok .Next, σ)) ⟨[]⟩
    ⟨fun _ _ σ => (.ok .Next, σ), ⟨0⟩⟩ 0 ⟨1⟩).2.2.2.2.2.2.2.2
    ⟨[0, 0]⟩ 9 (by decide)

/-- C6: the reference logging handler returns `Next` on the four
message-like tags and on `Callback`, emitting a log line that contains
the chat id, the sender's first name (defaulted when the sender is
absent) and the text resp. callback data (defaulted when absent); on
`Unknown` it fails with the unsupported-event error; and its output is
independent of the bound state, which it never touches. -/
theorem log_handler_spec {S : Type} (s : S) (a : API) (m : Message)
    (q : CallbackQuery) :
    (∃ line, log_handler ⟨a, .New m⟩ s = .ok (.Next, line) ∧
      List.IsInfix (toString m.chat.id).data line.data ∧
      List.IsInfix ((m.from_.getD default).first_name).data line.data ∧
      List.IsInfix (m.text.getD "").data line.data) ∧
    (∃ line, log_handler ⟨a, .Edited m⟩ s = .ok (.Next, line) ∧
      List.IsInfix (toString m.chat.id).data line.data ∧
      List.IsInfix ((m.from_.getD default).first_name).data line.data ∧
      List.IsInfix (m.text.getD "").data line.data) ∧
    (∃ line, log_handler ⟨a, .Post m⟩ s = .ok (.Next, line) ∧
      List.IsInfix (toString m.chat.id).data line.data ∧
      List.IsInfix ((m.from_.getD default).first_name).data line.data ∧
      List.IsInfix (m.text.getD "").data line.data) ∧
    (∃ line, log_handler ⟨a, .EditedPost m⟩ s = .ok (.Next, line) ∧
      List.IsInfix (toString m.chat.id).data line.data ∧
      List.IsInfix ((m.from_.getD default).first_name).data line.data ∧
      List.IsInfix (m.text.getD "").data line.data) ∧
    (∃ line, log_handler ⟨a, .Callback q⟩ s = .ok (.Next, line) ∧
      List.IsInfix (toString (q.message.getD default).chat.id).data
        line.data ∧
      List.IsInfix q.from_.first_name.data line.data ∧
      List.IsInfix (q.data.getD "").data line.data) ∧
    (log_handler ⟨a, .Unknown⟩ s = .error "Unknown message type") ∧
    (∀ (ev : Event) (t u : S), log_handler ev t = log_handler ev u) ∧
    (log_handler (S := Nat) ⟨⟨()⟩, .New ⟨⟨42⟩, some ⟨"Ana"⟩, some "hi"⟩⟩ 0 =
      .ok (.Next, "(42) Message from Ana: hi")) := by
  refine ⟨⟨_, rfl, ?_, ?_, ?_⟩, ⟨_, rfl, ?_, ?_, ?_⟩, ⟨_, rfl, ?_, ?_, ?_⟩,
    ⟨_, rfl, ?_, ?_, ?_⟩, ⟨_, rfl, ?_, ?_, ?_⟩, rfl, fun ev t u => rfl, ?_⟩
  · exact ⟨"(".data,
      (") Message from " ++ (m.from_.getD default).first_name ++ ": " ++
        m.text.getD "").data, by simp [String.data_append]⟩
  · exact ⟨("(" ++ toString m.chat.id ++ ") Message from ").data,
      (": " ++ m.text.getD "").data, by simp [String.data_append]⟩
  · exact ⟨("(" ++ toString m.chat.id ++ ") Message from " ++
      (m.from_.getD default).first_name ++ ": ").data, [],
      by simp [String.data_append]⟩
  · exact ⟨"(".data,
      (") Message from " ++ (m.from_.getD default).first_name ++ ": " ++
        m.text.getD "").data, by simp [String.data_append]⟩
  · exact ⟨("(" ++ toString m.chat.id ++ ") Message from ").data,
      (": " ++ m.text.getD "").data, by simp [String.data_append]⟩
  · exact ⟨("(" ++ toString m.chat.id ++ ") Message from " ++
      (m.from_.getD default).first_name ++ ": ").data, [],
      by simp [String.data_append]⟩
  · exact ⟨"(".data,
      (") Message from " ++ (m.from_.getD default).first_name ++ ": " ++
        m.text.getD "").data, by simp [String.data_append]⟩
  · exact ⟨("(" ++ toString m.chat.id ++ ") Message from ").data,
      (": " ++ m.text.getD "").data, by simp [String.data_append]⟩
  · exact ⟨("(" ++ toString m.chat.id ++ ") Message from " ++
      (m.from_.getD default).first_name ++ ": ").data, [],
      by simp [String.data_append]⟩
  · exact ⟨"(".data,
      (") Message from " ++ (m.from_.getD default).first_name ++ ": " ++
        m.text.getD "").data, by simp [String.data_append]⟩
  · exact ⟨("(" ++ toString m.chat.id ++ ") Message from ").data,
      (": " ++ m.text.getD "").data, by simp [String.data_append]⟩
  · exact ⟨("(" ++ toString m.chat.id ++ ") Message from " ++
      (m.from_.getD default).first_name ++ ": ").data, [],
      by simp [String.data_append]⟩
  · exact ⟨"(".data,
      (") Callback from " ++ q.from_.first_name ++ ": " ++
        q.data.getD "").data, by simp [String.data_append]⟩
  · exact ⟨("(" ++ toString (q.message.getD default).chat.id ++
      ") Callback from ").data, (": " ++ q.data.getD "").data,
      by simp [String.data_append]⟩
  · exact ⟨("(" ++ toString (q.message.getD default).chat.id ++
      ") Callback from " ++ q.from_.first_name ++ ": ").data, [],
      by simp [String.data_append]⟩
  · rfl

/-- A marker handler over `Nat` state cells: records its invocation by
writing `1` into its bound cell, then returns the given action. -/
def markerHandler (a : Action) (cell : Nat) : Handler Nat :=
  ⟨fun _ st σ => (.ok a, σ.write st 1), ⟨cell⟩⟩

/-- C8: dispatch runs handlers in registration order; `Next` passes
control on, `Done` stops the chain (no later handler runs), a reply
action is forwarded into the action stream and the chain continues, and
the empty chain yields no actions.  Concretely, a `[Next, Done, Next]`
chain of marker handlers executes only the first two — the third
handler's invocation marker stays untouched — and the action stream
stops at `Done`. -/
theorem dispatch_chain {S : Type} (e : Event) (σ σ₁ : Heap S)
    (h : Handler S) (hs : List (Handler S)) (a : Action) :
    (dispatch e ([] : List (Handler S)) σ = (.ok [], σ)) ∧
    (h.f e h.state σ = (.ok .Done, σ₁) →
      dispatch e (h :: hs) σ = (.ok [.Done], σ₁)) ∧
    (h.f e h.state σ = (.ok a, σ₁) → a ≠ .Done →
      dispatch e (h :: hs) σ =
        (Except.map (fun rest => a :: rest) (dispatch e hs σ₁).1,
          (dispatch e hs σ₁).2)) ∧
    (∀ msg, h.f e h.state σ = (.error msg, σ₁) →
      dispatch e (h :: hs) σ = (.error msg, σ₁)) ∧
    (dispatch ⟨⟨()⟩, .Unknown⟩
        [markerHandler .Next 0, markerHandler .Done 1, markerHandler .Next 2]
        ⟨[0, 0, 0]⟩ =
      (.ok [.Next, .Done], ⟨[1, 1, 0]⟩)) := by
  refine ⟨rfl, ?_, ?_, ?_, rfl⟩
  · intro hf
    simp [dispatch, hf]
  · intro hf hne
    cases a with
    | Done => exact absurd rfl hne
    | Next =>
      simp only [dispatch, hf]
      rcases hd : dispatch e hs σ₁ with ⟨res, σ₂⟩
      cases res <;> simp [Except.map]
    | ReplyText t =>
      simp only [dispatch, hf]
      rcases hd : dispatch e hs σ₁ with ⟨res, σ₂⟩
      cases res <;> simp [Except.map]
    | ReplyMarkdown t =>
      simp only [dispatch, hf]
      rcases hd : dispatch e hs σ₁ with ⟨res, σ₂⟩
      cases res <;> simp [Except.map]
    | ReplySticker t =>
      simp only [dispatch, hf]
      rcases hd : dispatch e hs σ₁ with ⟨res, σ₂⟩
      cases res <;> simp [Except.map]
  · intro msg hf
    simp [dispatch, hf]

/-- Witness for C8: a chain headed by a `Done` handler stops immediately
with only that handler's effect applied. -/
theorem dispatch_chain_witness :
    dispatch (S := Nat) ⟨⟨()⟩, .Unknown⟩
      [markerHandler .Done 1, markerHandler .Next 2] ⟨[1, 0, 0]⟩ =
      (.ok [.Done], ⟨[1, 1, 0]⟩) :=
  (dispatch_chain ⟨⟨()⟩, .Unknown⟩ ⟨[1, 0, 0]⟩ ⟨[1, 1, 0]⟩
    (markerHandler .Done 1) [markerHandler .Next 2] .Next).2.1 rfl

/-- Witness for C5: `get_message` on a `Callback`-tagged event returns
the recoverable type-mismatch error. -/
theorem typed_accessors_witness :
    Event.get_message ⟨⟨()⟩, .Callback ⟨⟨"u"⟩, none, none⟩⟩ =
      .error "MessageEvent is not a Message" :=
  (typed_accessors ⟨()⟩ default ⟨⟨"u"⟩, none, none⟩).2.2.2.2.1

/-- Witness for C6: the logging handler fails with the unsupported-event
error on an `Unknown` event. -/
theorem log_handler_spec_witness :
    log_handler (S := Nat) ⟨⟨()⟩, .Unknown⟩ 0 =
      .error "Unknown message type" :=
  (log_handler_spec (0 : Nat) ⟨()⟩ default ⟨default, none, none⟩).2.2.2.2.2.1

/-- Witness for C10: coercing a `New`-tagged event to a callback query
aborts the process. -/
theorem callback_coercion_partial_witness :
    CallbackQuery.fromEvent (.New (default : Message)) = .panicked :=
  callback_coercion_partial.2.1 default

end Mobot
